import Mathlib

/-!
Shallow embedding of the scheduled message-dispatch logic of the
MoviePilot-Plugins repository, plugins `groupchatzone` (class
`GroupChatZone`) and `sitechatroom` (class `SiteChatRoom`).

Pure control flow (loops over sites and messages, retry loops, lock and
time-window guards, list filters) is translated directly from the Python
source.  External collaborators are abstracted as oracles:

* the HTTP layer: a dispatch oracle yields, per call, the outcome the
  Python caller observes (return value / raised exception class);
* HTML scraping (`_parse_chat_response`): always returns a list and never
  raises, so each successful HTTP attempt simply carries the list it would
  parse to;
* `time.sleep`: recorded as an event in an observable trace;
* `TimerUtils.random_scheduler`: host-application code outside this
  repository, modelled from the spec (see its doc comment).

Integers from the Python side are modelled as `Int` (Python ints are
unbounded); counters as `Nat`.
-/

namespace MPV

/-- A chat record extracted from a shoutbox response.  The scraping of
    `GroupChatZone._parse_chat_response` is abstracted: it catches every
    exception and always returns a list, so each successful HTTP attempt
    carries the list it parses to. -/
structure ChatRecord where
  time : String
  username : String
  message : String
deriving DecidableEq

/-- Observable effects of a dispatch run: one HTTP dispatch for one message
    of one site, or a `time.sleep` of the given number of seconds. -/
inductive Event where
  | dispatch (site : String) (msg : String)
  | sleep (seconds : Int)
deriving DecidableEq

/-- True of a `dispatch` event. -/
def Event.isDispatch : Event → Bool
  | .dispatch _ _ => true
  | _ => false

/-- True of a `sleep` event. -/
def Event.isSleep : Event → Bool
  | .sleep _ => true
  | _ => false

/-- Outcome of one call of `GroupChatZone.send_message_to_site` as observed
    by its caller `__send_msgs`: the call returns a `(success, msg, chats)`
    triple, raises `MessageSendError`, or raises some other exception. -/
inductive SendOutcome where
  | ret (success : Bool) (msg : String) (chats : List ChatRecord)
  | raiseSendError (msg : String)
  | raiseOther
deriving DecidableEq

/-- Whether `__send_msgs` records the message as failed: it does when the
    call returned `success = False` (the caller then raises
    `MessageSendError msg` itself, caught just below) or raised any
    exception (both `except` arms record a failure identically). -/
def msgFails : SendOutcome → Bool
  | .ret true _ _ => false
  | _ => true

/-- The chat records contributed by one outcome (empty unless the call
    returned successfully with a non-empty list). -/
def outcomeChats : SendOutcome → List ChatRecord
  | .ret true _ chats => chats
  | _ => []

/-- Mirrors `max(1, min(self._interval_cnt, 10))`, the clamp applied by
    `GroupChatZone.__send_msgs` right before its inter-message sleep. -/
def clampInterval (interval_cnt : Int) : Int :=
  max 1 (min interval_cnt 10)

/-- Per-site result record built by `GroupChatZone.__send_msgs`
    (`site_results[site_name]`). -/
structure SiteResult where
  success_count : Nat
  failure_count : Nat
  failed_messages : List String
  chat_records : List ChatRecord
deriving DecidableEq

/-- The per-site message loop of `GroupChatZone.__send_msgs`
    (`for i, message in enumerate(messages)`): one dispatch per message; on
    a returned `success = True` the success counter grows and chat records
    accumulate, otherwise the failure counter grows and the message is
    appended to `failed_messages`; after every message except the last
    (`if i < len(messages) - 1`) the loop sleeps the clamped interval. -/
def send_msgs_inner (dispatch : String → String → SendOutcome)
    (interval_cnt : Int) (siteName : String) :
    List String → SiteResult × List Event
  | [] => (⟨0, 0, [], []⟩, [])
  | m :: rest =>
    let o := dispatch siteName m
    let r := send_msgs_inner dispatch interval_cnt siteName rest
    let res :=
      if msgFails o then
        { r.1 with failure_count := r.1.failure_count + 1,
                   failed_messages := m :: r.1.failed_messages }
      else
        { r.1 with success_count := r.1.success_count + 1,
                   chat_records := outcomeChats o ++ r.1.chat_records }
    let trace :=
      Event.dispatch siteName m ::
        (if rest.isEmpty then r.2
         else Event.sleep (clampInterval interval_cnt) :: r.2)
    (res, trace)

/-- A site entry of the registry (`all_sites` in `__send_msgs`); only the
    fields that `__send_msgs` itself reads are kept — the remaining fields
    (url, cookie, ua, proxy) are consumed only by `send_message_to_site`,
    which is modelled separately below. -/
structure GSite where
  id : String
  name : String
deriving DecidableEq

/-- Mirrors the site filtering of `__send_msgs`: each configured site id is
    looked up in the registry (`site_id_map`), ids that are absent are
    dropped with a warning. -/
def sitesToProcess (all_sites : List GSite) (do_sites : List String) :
    List GSite :=
  do_sites.filterMap fun sid => all_sites.find? fun s => s.id == sid

/-- Mirrors `site_msgs.get(site_name, [])`. -/
def msgsFor (site_msgs : List (String × List String)) (name : String) :
    List String :=
  (site_msgs.lookup name).getD []

/-- Aggregate state built by the per-site loop of `__send_msgs`. -/
structure RunAcc where
  site_results : List (String × SiteResult)
  total_success : Nat
  total_failure : Nat
  trace : List Event
deriving DecidableEq

/-- The per-site loop of `__send_msgs` (`for site in sites_to_process`): a
    site without configured messages is skipped (`continue`, no results
    entry); otherwise its messages are processed by the inner loop and its
    result is recorded under its name, totals accumulating. -/
def send_msgs_go (dispatch : String → String → SendOutcome)
    (interval_cnt : Int) (site_msgs : List (String × List String)) :
    List GSite → RunAcc
  | [] => ⟨[], 0, 0, []⟩
  | site :: rest =>
    let acc := send_msgs_go dispatch interval_cnt site_msgs rest
    let messages := msgsFor site_msgs site.name
    if messages.isEmpty then acc
    else
      let r := send_msgs_inner dispatch interval_cnt site.name messages
      ⟨(site.name, r.1) :: acc.site_results,
       r.1.success_count + acc.total_success,
       r.1.failure_count + acc.total_failure,
       r.2 ++ acc.trace⟩

/-- Embedding of `GroupChatZone.__send_msgs`: resolve the configured site
    ids against the registry, then run the per-site loop.  The early return
    when no site resolves produces the same empty aggregate as the loop
    over an empty list; the trailing notification/`__update_config` calls
    are effects outside the run state. -/
def send_msgs (dispatch : String → String → SendOutcome)
    (interval_cnt : Int) (all_sites : List GSite) (do_sites : List String)
    (site_msgs : List (String × List String)) : RunAcc :=
  send_msgs_go dispatch interval_cnt site_msgs
    (sitesToProcess all_sites do_sites)

/-! ### SiteChatRoom variant of the per-site message loop -/

/-- Outcome of one send of `SiteChatRoom.__send_messages_to_site` for a
    single message: both the Playwright path and the requests path either
    complete or raise, which the surrounding `except` catches. -/
inductive ScrSendResult where
  | ok
  | raised
deriving DecidableEq

/-- Mirrors `config.get("interval_cnt") or 5` of `SiteChatRoom.init_plugin`:
    a Python-falsy value (0) is replaced by 5, everything else is kept
    unclamped. -/
def scr_load_interval_cnt (v : Int) : Int :=
  if v = 0 then 5 else v

/-- The message loop of `SiteChatRoom.__send_messages_to_site`
    (`for index, message in enumerate(messages, 1)`): one send attempt per
    message inside a `try`; after a successful send that is not the last
    message (`if index < len(messages)`) the loop sleeps `self._interval_cnt`
    unclamped — the sleep statement sits inside the `try`, so a raised send
    skips it; an exception is logged and the loop continues. -/
def scr_send_loop (send : String → ScrSendResult) (interval_cnt : Int)
    (siteName : String) : List String → Nat × List Event
  | [] => (0, [])
  | m :: rest =>
    let acc := scr_send_loop send interval_cnt siteName rest
    match send m with
    | .ok =>
      (acc.1 + 1,
       Event.dispatch siteName m ::
         (if rest.isEmpty then acc.2 else Event.sleep interval_cnt :: acc.2))
    | .raised =>
      (acc.1, Event.dispatch siteName m :: acc.2)

/-- Embedding of `SiteChatRoom.__send_messages_to_site`: a site missing its
    url or cookie (`if not all([site_url, site_cookie])`) is skipped with a
    warning; otherwise the message loop runs.  Returns `success_count` and
    the event trace. -/
def scr_send_messages_to_site (send : String → ScrSendResult)
    (interval_cnt : Int) (siteName siteUrl siteCookie : String)
    (messages : List String) : Nat × List Event :=
  if siteUrl = "" || siteCookie = "" then (0, [])
  else scr_send_loop send interval_cnt siteName messages

/-! ### The retry loop of `GroupChatZone.send_message_to_site` -/

/-- What one `session.get` + `raise_for_status` + parse observes inside the
    manual retry loop of `send_message_to_site`: a successful response (with
    the chat records the response parses to), an error status raised by
    `raise_for_status` as `requests.exceptions.HTTPError`, a connection
    error, a timeout, or another `RequestException`.  The urllib3 `Retry`
    adapter mounted on the session performs its own transport-level retries
    inside a single `session.get`; one `AttemptResult` is the net outcome of
    one `session.get` call. -/
inductive AttemptResult where
  | ok (chats : List ChatRecord)
  | httpError (status : Nat)
  | connError
  | timeoutError
  | requestError
deriving DecidableEq

/-- Whether the attempt outcome lands in one of the four `except` arms of
    the manual loop (everything other than a successful return does). -/
def attemptFails : AttemptResult → Bool
  | .ok _ => false
  | _ => true

/-- Mirrors `max_attempts = 3` in `send_message_to_site`. -/
def max_attempts : Nat := 3

/-- Observable behaviour of the manual retry loop: how many `session.get`
    calls were made, the backoff sleeps performed between them in order,
    and the returned triple or the raised `MessageSendError`. -/
structure LoopTrace where
  calls : Nat
  sleeps : List Nat
  result : Except String (Bool × String × List ChatRecord)

/-- The `while attempt < max_attempts` loop of `send_message_to_site`,
    with `fuel = max_attempts - attempt`: a successful `session.get`
    returns `(True, msg, chats)` at once; on any caught exception the
    counter is incremented and, if another attempt remains, the loop sleeps
    `1 * (2 ** (attempt - 1))` seconds and retries; once the counter
    reaches `max_attempts` the loop exits and `MessageSendError` is
    raised. -/
def sendLoop (att : Nat → AttemptResult) : Nat → Nat → LoopTrace
  | _, 0 => ⟨0, [], .error "MessageSendError"⟩
  | attempt, fuel + 1 =>
    match att attempt with
    | .ok chats => ⟨1, [], .ok (true, "消息发送成功", chats)⟩
    | _ =>
      let next := attempt + 1
      if next < max_attempts then
        let r := sendLoop att next fuel
        ⟨r.calls + 1, 2 ^ (next - 1) :: r.sleeps, r.result⟩
      else
        ⟨1, [], .error "MessageSendError"⟩

/-- Python `str.strip` whitespace test (ASCII whitespace: space, tab,
    newline, carriage return, vertical tab, form feed). -/
def pyIsSpace (c : Char) : Bool :=
  c = ' ' || c = '\t' || c = '\n' || c = '\r' || c.toNat = 11 || c.toNat = 12

/-- Python `str.strip()`: leading and trailing whitespace removed. -/
def pyStrip (s : String) : String :=
  ⟨((s.data.dropWhile pyIsSpace).reverse.dropWhile pyIsSpace).reverse⟩

/-- Site information consumed by `send_message_to_site`
    (`site_info.get(...)` fields). -/
structure SiteInfoRec where
  name : String
  url : String
  cookie : String
  ua : String
  proxy : Bool
deriving DecidableEq

/-- Mirrors `not all([site_name, site_url, site_cookie, ua])` after each
    field is `.strip()`-ped. -/
def requiredMissing (s : SiteInfoRec) : Bool :=
  pyStrip s.name = "" || pyStrip s.url = "" || pyStrip s.cookie = ""
    || pyStrip s.ua = ""

/-- Embedding of `GroupChatZone.send_message_to_site`: an empty/absent
    `site_info` raises `MessageSendError`, as does a missing required
    field; otherwise the retry loop runs from attempt 0. -/
def send_message_to_site (att : Nat → AttemptResult)
    (site_info : Option SiteInfoRec) (_message : String) : LoopTrace :=
  match site_info with
  | none => ⟨0, [], .error "MessageSendError"⟩
  | some s =>
    if requiredMissing s then ⟨0, [], .error "MessageSendError"⟩
    else sendLoop att 0 max_attempts

/-- Success flag of the returned triple, when the call returned. -/
def returnedFlag (t : LoopTrace) : Option Bool :=
  match t.result with
  | .ok p => some p.1
  | .error _ => none

/-! ### The dispatch job `GroupChatZone.send_site_messages` -/

/-- The mutable plugin state read and written by `send_site_messages`. -/
structure GCZState where
  lockHeld : Bool
  running : Bool
  start_time : Option Int
  end_time : Option Int
  chat_sites : List String
  parsed_cache : List (String × List String)
  last_parse_time : Int
deriving DecidableEq

/-- Mirrors the execution-window guard at the top of `send_site_messages`:
    when both `_start_time` and `_end_time` are set and the current hour is
    not within `[_start_time, _end_time]`, the invocation returns before
    touching the lock. -/
def windowBlocks (st : GCZState) (currentHour : Int) : Bool :=
  match st.start_time, st.end_time with
  | some s, some e => !(s ≤ currentHour && currentHour ≤ e)
  | _, _ => false

/-- Where, if anywhere, the body of the `try` block raises.  `inParse`
    stands for an exception before the cache refresh completed (message
    parsing); `inSend n` for an exception after `n` events of
    `__send_msgs` (any per-site dispatch step); the `except Exception`
    arm catches either, and `finally` still runs. -/
inductive RaiseBehavior where
  | noRaise
  | inParse
  | inSend (afterEvents : Nat)
deriving DecidableEq

/-- Embedding of `GroupChatZone.send_site_messages`.  Control flow of the
    source: execution-window check; `self._lock.acquire(blocking=False)`
    returns False when the lock is already held, and the invocation returns
    at once; otherwise the body runs under `try/except/finally` —
    `_running = True`, refresh of `_parsed_messages_cache` when it is empty
    or older than 300 s, `__send_msgs` over `_chat_sites` — and the
    `finally` arm always resets `_running` and releases the lock.  The
    returned trace is the sequence of dispatch/sleep events performed
    (truncated where an exception interrupted the loop). -/
def send_site_messages (dispatch : String → String → SendOutcome)
    (interval_cnt : Int) (all_sites : List GSite)
    (parseResult : List (String × List String))
    (currentHour currentTime : Int) (rb : RaiseBehavior)
    (st : GCZState) : GCZState × List Event :=
  if windowBlocks st currentHour then (st, [])
  else if st.lockHeld then (st, [])
  else if st.chat_sites.isEmpty then
    ({ st with running := false, lockHeld := false }, [])
  else
    match rb with
    | .inParse => ({ st with running := false, lockHeld := false }, [])
    | _ =>
      let refresh := st.parsed_cache.isEmpty
          || decide (currentTime - st.last_parse_time > 300)
      let cache := if refresh then parseResult else st.parsed_cache
      let lpt := if refresh then currentTime else st.last_parse_time
      let fullTrace :=
        (send_msgs dispatch interval_cnt all_sites st.chat_sites cache).trace
      let tr := match rb with
        | .inSend n => fullTrace.take n
        | _ => fullTrace
      ({ st with parsed_cache := cache, last_parse_time := lpt,
                 running := false, lockHeld := false }, tr)

/-! ### Schedule resolvers -/

/-- A cron trigger time produced by the random fallback. -/
structure SchedTrigger where
  hour : Nat
  minute : Nat
deriving DecidableEq

/-- A registered job of `get_service` (random-fallback shape: a cron
    trigger with `hour`/`minute` kwargs). -/
structure SchedJob where
  id : String
  name : String
  hour : Nat
  minute : Nat
deriving DecidableEq

/-- Modelled from the spec: `TimerUtils.random_scheduler` is
    host-application code (`app.utils.timer`), not part of this repository.
    The spec describes the fallback it implements as "one random firing
    time per day between hour 9 and hour 23, with a minimum 2-hour and
    maximum 6-hour random offset from the previous random pick"; so the
    model returns `num_executions` triggers, each at a random time whose
    hour lies between `begin_hour` and `end_hour` inclusive, the
    randomness supplied by `pick` (the interval bounds shape the
    distribution of picks, not the hour range, and are carried as
    arguments only). -/
def random_scheduler (pick : Nat → Nat × Nat) (num_executions : Nat)
    (begin_hour end_hour : Nat) (_max_interval _min_interval : Nat) :
    List SchedTrigger :=
  (List.range num_executions).map fun i =>
    ⟨begin_hour + (pick i).1 % (end_hour - begin_hour + 1), (pick i).2 % 60⟩

/-- Embedding of `GroupChatZone._configure_random_service`: one job per
    trigger of `random_scheduler(num_executions=1, begin_hour=9,
    end_hour=23, max_interval=6*60, min_interval=2*60)`. -/
def configure_random_service (pick : Nat → Nat × Nat) : List SchedJob :=
  (random_scheduler pick 1 9 23 (6 * 60) (2 * 60)).map fun t =>
    ⟨"GroupChatZone|" ++ toString t.hour ++ ":" ++ toString t.minute,
     "站点喊话服务", t.hour, t.minute⟩

/-- Partial evaluation of `GroupChatZone.get_service` at `_cron = ""`: a
    disabled plugin registers nothing; otherwise the truthiness test
    `if self._cron:` fails on the empty string, so the default random
    configuration is used. -/
def gcz_service_for_empty_cron (enabled : Bool) (pick : Nat → Nat × Nat) :
    List SchedJob :=
  if enabled then configure_random_service pick else []

/-- Partial evaluation of `SiteChatRoom.get_service` at `_cron = ""`: the
    branch `if self._enabled and self._cron:` fails on the empty string and
    `elif self._enabled:` registers one job per trigger of
    `random_scheduler(num_executions=2, begin_hour=9, end_hour=23,
    max_interval=6*60, min_interval=2*60)`. -/
def scr_service_for_empty_cron (enabled : Bool) (pick : Nat → Nat × Nat) :
    List SchedJob :=
  if enabled then
    (random_scheduler pick 2 9 23 (6 * 60) (2 * 60)).map fun t =>
      ⟨"SiteChatRoom|" ++ toString t.hour ++ ":" ++ toString t.minute,
       "站点聊天室消息发送服务", t.hour, t.minute⟩
  else []

/-! ### Site-list filtering and site deletion -/

/-- Embedding of the core of `GroupChatZone._validate_and_filter_sites`:
    `[site_id for site_id in self._chat_sites if site_id in all_sites]`,
    keeping only ids present in the current registry. -/
def validate_and_filter_sites (all_site_ids : List String)
    (chat_sites : List String) : List String :=
  chat_sites.filter fun sid => all_site_ids.contains sid

/-- Embedding of the `SiteChatRoom.init_plugin` filter
    `[site_id for site_id in all_sites if site_id in self._chat_sites]`:
    it iterates the registry and keeps the ids present in the persisted
    `chat_sites`, so the resolved list comes out in registry order. -/
def scr_filter_chat_sites (all_site_ids : List String)
    (chat_sites : List String) : List String :=
  all_site_ids.filter fun sid => chat_sites.contains sid

/-- Embedding of `__remove_site_id` (identical in `GroupChatZone` and
    `SiteChatRoom`).  A falsy `do_sites` (empty list) is returned as is,
    the enabled flag untouched.  Otherwise: a truthy `site_id` filters out
    entries with `int(site) == int(site_id)`, a falsy one (absent, or 0)
    clears the list; if the resulting list is empty the plugin's enabled
    flag is set to False.  Returns the new list and the new enabled
    flag. -/
def remove_site_id (enabled : Bool) (do_sites : List Int)
    (site_id : Option Int) : List Int × Bool :=
  match do_sites with
  | [] => ([], enabled)
  | _ =>
    let ds : List Int :=
      match site_id with
      | some v => if v ≠ 0 then do_sites.filter (fun s => s ≠ v) else []
      | none => []
    (ds, if ds.isEmpty then false else enabled)

/-- Condition under which `send_message_to_site` raises before any HTTP
    call: the site info is absent/empty or a required field is blank. -/
def infoInvalid : Option SiteInfoRec → Bool
  | none => true
  | some s => requiredMissing s

/-- All three attempts of the manual retry loop land in an `except` arm. -/
def allAttemptsFail (att : Nat → AttemptResult) : Bool :=
  attemptFails (att 0) && attemptFails (att 1) && attemptFails (att 2)

/-! ## Theorems -/

/-- The clamp of `__send_msgs` always lands in the interval `[1, 10]`. -/
theorem clampInterval_bounds (v : Int) :
    1 ≤ clampInterval v ∧ clampInterval v ≤ 10 := by
  unfold clampInterval
  exact ⟨le_max_left _ _, max_le (by norm_num) (min_le_right _ _)⟩

/-- One unfolding step of the trace of the per-site message loop. -/
theorem send_msgs_inner_trace_cons (d : String → String → SendOutcome)
    (iv : Int) (name m : String) (rest : List String) :
    (send_msgs_inner d iv name (m :: rest)).2
      = Event.dispatch name m ::
          (if rest.isEmpty then (send_msgs_inner d iv name rest).2
           else Event.sleep (clampInterval iv) ::
             (send_msgs_inner d iv name rest).2) := rfl

/-- Trace shape of the per-site message loop of `__send_msgs`: the dispatch
    calls in message order, with one clamped sleep exactly between
    consecutive calls. -/
theorem send_msgs_inner_trace (d : String → String → SendOutcome)
    (iv : Int) (name : String) (msgs : List String) :
    (send_msgs_inner d iv name msgs).2
      = List.intersperse (Event.sleep (clampInterval iv))
          (msgs.map (Event.dispatch name)) := by
  induction msgs with
  | nil => rfl
  | cons m rest ih =>
    rw [send_msgs_inner_trace_cons]
    cases rest with
    | nil => simp [send_msgs_inner]
    | cons r rs =>
      rw [ih]
      simp [List.intersperse_cons_cons]

/-- The per-site loop issues exactly one dispatch event per message. -/
theorem send_msgs_inner_dispatch_count (d : String → String → SendOutcome)
    (iv : Int) (name : String) (msgs : List String) :
    (send_msgs_inner d iv name msgs).2.countP Event.isDispatch
      = msgs.length := by
  induction msgs with
  | nil => rfl
  | cons m rest ih =>
    rw [send_msgs_inner_trace_cons]
    cases rest with
    | nil => simp [send_msgs_inner, List.countP_cons, Event.isDispatch]
    | cons r rs =>
      simp [List.countP_cons, Event.isDispatch, Event.isSleep, ih]

/-- The per-site loop sleeps exactly `length - 1` times. -/
theorem send_msgs_inner_sleep_count (d : String → String → SendOutcome)
    (iv : Int) (name : String) (msgs : List String) :
    (send_msgs_inner d iv name msgs).2.countP Event.isSleep
      = msgs.length - 1 := by
  induction msgs with
  | nil => rfl
  | cons m rest ih =>
    rw [send_msgs_inner_trace_cons]
    cases rest with
    | nil => simp [send_msgs_inner, List.countP_cons, Event.isSleep]
    | cons r rs =>
      simp [List.countP_cons, Event.isSleep, Event.isDispatch, ih]

/-- A message whose dispatch fails is recorded in `failed_messages`. -/
theorem send_msgs_inner_failed_mem (d : String → String → SendOutcome)
    (iv : Int) (name m : String) :
    ∀ msgs : List String, m ∈ msgs → msgFails (d name m) = true →
      m ∈ (send_msgs_inner d iv name msgs).1.failed_messages := by
  intro msgs hm hfail
  induction msgs with
  | nil => cases hm
  | cons a rest ih =>
    rcases List.mem_cons.mp hm with rfl | htail
    · simp [send_msgs_inner, hfail]
    · have hrec := ih htail
      by_cases hf : msgFails (d name a) = true
      · simp [send_msgs_inner, hf]
        exact Or.inr hrec
      · simp only [Bool.not_eq_true] at hf
        simp [send_msgs_inner, hf]
        exact hrec

/-- Every message of the list is dispatched by the per-site loop. -/
theorem send_msgs_inner_dispatch_mem (d : String → String → SendOutcome)
    (iv : Int) (name m : String) :
    ∀ msgs : List String, m ∈ msgs →
      Event.dispatch name m ∈ (send_msgs_inner d iv name msgs).2 := by
  intro msgs hm
  induction msgs with
  | nil => cases hm
  | cons a rest ih =>
    rcases List.mem_cons.mp hm with rfl | htail
    · simp [send_msgs_inner]
    · have hrec := ih htail
      cases rest with
      | nil => cases htail
      | cons r rs =>
        simp only [send_msgs_inner, List.isEmpty_cons] at hrec ⊢
        simp at hrec ⊢
        tauto

/-- One unfolding step of the `SiteChatRoom` message loop. -/
theorem scr_send_loop_cons (send : String → ScrSendResult) (iv : Int)
    (name m : String) (rest : List String) :
    scr_send_loop send iv name (m :: rest)
      = (match send m with
         | .ok =>
           ((scr_send_loop send iv name rest).1 + 1,
            Event.dispatch name m ::
              (if rest.isEmpty then (scr_send_loop send iv name rest).2
               else Event.sleep iv :: (scr_send_loop send iv name rest).2))
         | .raised =>
           ((scr_send_loop send iv name rest).1,
            Event.dispatch name m :: (scr_send_loop send iv name rest).2)) :=
  rfl

/-- The `SiteChatRoom` loop also issues exactly one dispatch per message,
    whatever the outcomes. -/
theorem scr_send_loop_dispatch_count (send : String → ScrSendResult)
    (iv : Int) (name : String) (msgs : List String) :
    (scr_send_loop send iv name msgs).2.countP Event.isDispatch
      = msgs.length := by
  induction msgs with
  | nil => rfl
  | cons m rest ih =>
    rw [scr_send_loop_cons]
    cases send m with
    | ok =>
      cases rest with
      | nil => simp [scr_send_loop, List.countP_cons, Event.isDispatch]
      | cons r rs =>
        simp [List.countP_cons, Event.isDispatch, Event.isSleep, ih]
    | raised => simp [List.countP_cons, Event.isDispatch, ih]

/-- When every send succeeds, the `SiteChatRoom` loop produces the same
    interleaving as GroupChatZone, except that the sleep is unclamped. -/
theorem scr_send_loop_all_ok_trace (send : String → ScrSendResult)
    (iv : Int) (name : String) (msgs : List String)
    (hok : ∀ m ∈ msgs, send m = ScrSendResult.ok) :
    (scr_send_loop send iv name msgs).2
      = List.intersperse (Event.sleep iv)
          (msgs.map (Event.dispatch name)) := by
  induction msgs with
  | nil => rfl
  | cons m rest ih =>
    rw [scr_send_loop_cons, hok m (List.mem_cons_self m rest)]
    have ih' := ih fun x hx => hok x (List.mem_cons_of_mem m hx)
    cases rest with
    | nil => simp [scr_send_loop]
    | cons r rs =>
      rw [ih']
      simp [List.intersperse_cons_cons]

/-- Looking up a processed site's entry in the accumulated results of the
    per-site loop of `__send_msgs`: under distinct site names, a site with
    configured messages is recorded under its name with exactly the result
    of its inner loop. -/
theorem send_msgs_go_lookup (d : String → String → SendOutcome) (iv : Int)
    (site_msgs : List (String × List String)) (B : GSite) :
    ∀ sites : List GSite, (sites.map GSite.name).Nodup → B ∈ sites →
      msgsFor site_msgs B.name ≠ [] →
      (send_msgs_go d iv site_msgs sites).site_results.lookup B.name
        = some (send_msgs_inner d iv B.name (msgsFor site_msgs B.name)).1 := by
  intro sites hnodup hB hne
  induction sites with
  | nil => cases hB
  | cons s rest ih =>
    have hnodup' : (rest.map GSite.name).Nodup :=
      (List.nodup_cons.mp hnodup).2
    rcases List.mem_cons.mp hB with rfl | htail
    · have hmsgs : (msgsFor site_msgs B.name).isEmpty = false := by
        cases h : msgsFor site_msgs B.name with
        | nil => exact absurd h hne
        | cons a l => rfl
      simp [send_msgs_go, hmsgs, List.lookup]
    · have hname : s.name ≠ B.name := by
        intro h
        exact (List.nodup_cons.mp hnodup).1
          (h ▸ List.mem_map_of_mem GSite.name htail)
      have hrec := ih hnodup' htail
      by_cases hm : (msgsFor site_msgs s.name).isEmpty
      · simpa [send_msgs_go, hm] using hrec
      · simp only [Bool.not_eq_true] at hm
        have hbeq : (B.name == s.name) = false :=
          beq_eq_false_iff_ne.mpr (Ne.symm hname)
        simp [send_msgs_go, hm, List.lookup, hbeq, hrec]

/-- Every message of every processed site with configured messages is
    dispatched in the run trace of `__send_msgs`. -/
theorem send_msgs_go_trace_mem (d : String → String → SendOutcome)
    (iv : Int) (site_msgs : List (String × List String)) (s : GSite)
    (m' : String) :
    ∀ sites : List GSite, s ∈ sites → m' ∈ msgsFor site_msgs s.name →
      Event.dispatch s.name m' ∈ (send_msgs_go d iv site_msgs sites).trace := by
  intro sites hs hm'
  induction sites with
  | nil => cases hs
  | cons a rest ih =>
    rcases List.mem_cons.mp hs with rfl | htail
    · have hmsgs : (msgsFor site_msgs s.name).isEmpty = false := by
        cases h : msgsFor site_msgs s.name with
        | nil => rw [h] at hm'; cases hm'
        | cons x l => rfl
      have hd := send_msgs_inner_dispatch_mem d iv s.name m'
        (msgsFor site_msgs s.name) hm'
      simp [send_msgs_go, hmsgs]
      exact Or.inl hd
    · have hrec := ih htail
      by_cases hm : (msgsFor site_msgs a.name).isEmpty
      · simpa [send_msgs_go, hm] using hrec
      · simp only [Bool.not_eq_true] at hm
        simp [send_msgs_go, hm]
        exact Or.inr hrec

set_option maxHeartbeats 1000000 in
/-- Behaviour of the manual retry loop of `send_message_to_site` from
    attempt 0: at most `max_attempts` calls, the sleeps before retries are
    exactly `2 ^ 0, 2 ^ 1, ...` seconds, and a further call is made only
    after a failed attempt. -/
theorem sendLoop_bounded_backoff (att : Nat → AttemptResult) :
    (sendLoop att 0 max_attempts).calls ≤ 3
    ∧ (sendLoop att 0 max_attempts).sleeps
        = (List.range ((sendLoop att 0 max_attempts).calls - 1)).map
            (fun n => 2 ^ n)
    ∧ (∀ n : Nat, n + 1 < (sendLoop att 0 max_attempts).calls →
        attemptFails (att n) = true) := by
  cases h0 : att 0 <;> cases h1 : att 1 <;> cases h2 : att 2 <;>
    refine ⟨?_, ?_, ?_⟩ <;>
      simp_all [sendLoop, max_attempts, attemptFails] <;>
      first
        | decide
        | (intro n hn
           first
             | omega
             | (have hcase : n = 0 ∨ n = 1 := by omega
                rcases hcase with rfl | rfl <;> simp_all))

set_option maxHeartbeats 1000000 in
/-- The manual retry loop returns `(True, ...)` when some of the three
    attempts succeeds, and raises when all three fail. -/
theorem sendLoop_result (att : Nat → AttemptResult) :
    (match (sendLoop att 0 max_attempts).result with
      | .ok p => some p.1
      | .error _ => none)
      = if allAttemptsFail att then none else some true := by
  cases h0 : att 0 <;> cases h1 : att 1 <;> cases h2 : att 2 <;>
    simp_all [sendLoop, max_attempts, attemptFails, allAttemptsFail]

/-- C6 (amended): in `GroupChatZone.send_message_to_site` the number of
    session-level HTTP attempts (`session.get` calls of the manual loop) is
    bounded by 3, the sleep before retry `n` is `2 ^ (n-1)` seconds
    starting at 1 s, and a retry is made exactly after an attempt that
    raised any caught request exception — which includes `HTTPError` for
    every error status (`raise_for_status`), not only the statuses
    `{403, 404, 500, 502, 503, 504}`; that fixed set only configures the
    transport-level urllib3 `Retry` adapter inside one `session.get`. -/
theorem claim6_retry_bounded_backoff (att : Nat → AttemptResult)
    (si : Option SiteInfoRec) (msg : String) :
    (send_message_to_site att si msg).calls ≤ 3
    ∧ (send_message_to_site att si msg).sleeps
        = (List.range ((send_message_to_site att si msg).calls - 1)).map
            (fun n => 2 ^ n)
    ∧ (∀ n : Nat, n + 1 < (send_message_to_site att si msg).calls →
        attemptFails (att n) = true) := by
  match si with
  | none => exact ⟨by simp [send_message_to_site], by simp [send_message_to_site], by simp [send_message_to_site]⟩
  | some s =>
    by_cases hreq : requiredMissing s
    · exact ⟨by simp [send_message_to_site, hreq],
             by simp [send_message_to_site, hreq],
             by simp [send_message_to_site, hreq]⟩
    · simp only [Bool.not_eq_true] at hreq
      simpa [send_message_to_site, hreq] using sendLoop_bounded_backoff att

/-- Witness for C6 at a concrete input: with a connection error on every
    attempt, exactly 3 calls are made, the backoff sleeps are 1 s and 2 s,
    and the hypothesis of the retry clause holds at `n = 0`. -/
theorem claim6_witness :
    (send_message_to_site (fun _ => AttemptResult.connError)
        (some ⟨"name", "url", "cookie", "ua", false⟩) "msg").calls ≤ 3
    ∧ (send_message_to_site (fun _ => AttemptResult.connError)
        (some ⟨"name", "url", "cookie", "ua", false⟩) "msg").sleeps
        = (List.range ((send_message_to_site (fun _ => AttemptResult.connError)
            (some ⟨"name", "url", "cookie", "ua", false⟩) "msg").calls - 1)).map
            (fun n => 2 ^ n)
    ∧ 0 + 1 < (send_message_to_site (fun _ => AttemptResult.connError)
        (some ⟨"name", "url", "cookie", "ua", false⟩) "msg").calls
    ∧ attemptFails ((fun _ => AttemptResult.connError) 0) = true :=
  ⟨(claim6_retry_bounded_backoff _ _ _).1,
   (claim6_retry_bounded_backoff _ _ _).2.1,
   by decide,
   (claim6_retry_bounded_backoff (fun _ => AttemptResult.connError)
      (some ⟨"name", "url", "cookie", "ua", false⟩) "msg").2.2 0 (by decide)⟩

/-- C6 counterexample: an HTTP 401 response — a status outside the claimed
    retry set and not a connection/timeout exception — still triggers a
    retry of the manual loop (a second call is made), because
    `raise_for_status` raises `HTTPError` for every error status and the
    loop catches it. -/
theorem claim6_counterexample :
    (sendLoop (fun n => if n == 0 then AttemptResult.httpError 401
        else AttemptResult.ok []) 0 max_attempts).calls = 2
    ∧ (([403, 404, 500, 502, 503, 504] : List Nat).contains 401) = false := by
  decide

/-- C9: `send_message_to_site` either returns a triple whose success flag
    is `True`, or raises `MessageSendError` — exactly when the site info is
    empty, a required field is blank, or all three HTTP attempts fail; a
    returned success flag of `False` is impossible. -/
theorem claim9_success_flag_never_false (att : Nat → AttemptResult)
    (si : Option SiteInfoRec) (msg : String) :
    returnedFlag (send_message_to_site att si msg)
      = if infoInvalid si || allAttemptsFail att then none
        else some true := by
  match si with
  | none => simp [send_message_to_site, returnedFlag, infoInvalid]
  | some s =>
    by_cases hreq : requiredMissing s
    · simp [send_message_to_site, returnedFlag, infoInvalid, hreq]
    · simp only [Bool.not_eq_true] at hreq
      have h := sendLoop_result att
      by_cases hall : allAttemptsFail att <;>
        simp_all [send_message_to_site, returnedFlag, infoInvalid, hreq]

/-- C8: in both plugin variants the filter resolving the Target list keeps
    only site ids present in the registry, and applying it twice to the
    same list against the same registry yields the same list as applying it
    once — for `GroupChatZone._validate_and_filter_sites`, which filters
    the persisted list by registry membership, as well as for the
    `SiteChatRoom.init_plugin` filter, which iterates the registry and
    keeps the persisted ids. -/
theorem claim8_filter_excludes_and_idempotent
    (all_site_ids chat_sites : List String) :
    (validate_and_filter_sites all_site_ids chat_sites).all
        (fun sid => all_site_ids.contains sid) = true
    ∧ validate_and_filter_sites all_site_ids
        (validate_and_filter_sites all_site_ids chat_sites)
      = validate_and_filter_sites all_site_ids chat_sites
    ∧ (scr_filter_chat_sites all_site_ids chat_sites).all
        (fun sid => all_site_ids.contains sid) = true
    ∧ scr_filter_chat_sites all_site_ids
        (scr_filter_chat_sites all_site_ids chat_sites)
      = scr_filter_chat_sites all_site_ids chat_sites := by
  refine ⟨?_, ?_, ?_, ?_⟩
  · rw [List.all_eq_true]
    intro x hx
    exact (List.mem_filter.mp hx).2
  · simp [validate_and_filter_sites, List.filter_filter]
  · rw [List.all_eq_true]
    intro x hx
    have hmem : x ∈ all_site_ids := (List.mem_filter.mp hx).1
    simp [hmem]
  · apply List.filter_congr
    intro x hx
    simp [scr_filter_chat_sites, List.mem_filter, hx]

/-- C10: handling a `SiteDeleted` event that leaves the configured site
    list empty — the last id removed, or no id in the event clearing the
    list — sets the enabled flag to False; an already-empty input list
    leaves state untouched. -/
theorem claim10_autodisable_on_empty (enabled : Bool) (do_sites : List Int)
    (site_id : Option Int) :
    (do_sites ≠ [] → (remove_site_id enabled do_sites site_id).1 = [] →
        (remove_site_id enabled do_sites site_id).2 = false)
    ∧ (do_sites = [] →
        remove_site_id enabled do_sites site_id = ([], enabled)) := by
  constructor
  · intro hne hempty
    match do_sites, hne with
    | a :: l, _ =>
      simp only [remove_site_id] at hempty ⊢
      rw [hempty] at *
      simp_all [remove_site_id]
  · intro h
    subst h
    rfl

/-- Witness for C10 at concrete inputs: deleting the only configured site
    disables the plugin; an empty configured list is left untouched. -/
theorem claim10_witness :
    (([5] : List Int) ≠ []
      ∧ (remove_site_id true [5] (some 5)).1 = []
      ∧ (remove_site_id true [5] (some 5)).2 = false)
    ∧ (([] : List Int) = []
      ∧ remove_site_id true [] (some 5) = ([], true)) :=
  ⟨⟨by decide, by decide,
    (claim10_autodisable_on_empty true [5] (some 5)).1 (by decide) (by decide)⟩,
   ⟨rfl, (claim10_autodisable_on_empty true [] (some 5)).2 rfl⟩⟩

/-- C4 (amended): in `GroupChatZone.__send_msgs` a target with `k` messages
    gets exactly `k` dispatch calls, with the inter-message sleep exactly
    between consecutive calls and never after the last, regardless of
    outcomes; in `SiteChatRoom.__send_messages_to_site` the `k` calls are
    all issued, and the sleep placement is the same only when every call
    succeeds — after a failed call the sleep is skipped. -/
theorem claim4_calls_and_sleep_placement
    (dispatch : String → String → SendOutcome)
    (send : String → ScrSendResult) (interval_cnt : Int)
    (siteName : String) (msgs : List String) :
    (send_msgs_inner dispatch interval_cnt siteName msgs).2
        = List.intersperse (Event.sleep (clampInterval interval_cnt))
            (msgs.map (Event.dispatch siteName))
    ∧ (send_msgs_inner dispatch interval_cnt siteName msgs).2.countP
        Event.isDispatch = msgs.length
    ∧ (send_msgs_inner dispatch interval_cnt siteName msgs).2.countP
        Event.isSleep = msgs.length - 1
    ∧ (scr_send_loop send interval_cnt siteName msgs).2.countP
        Event.isDispatch = msgs.length
    ∧ ((∀ m ∈ msgs, send m = ScrSendResult.ok) →
        (scr_send_loop send interval_cnt siteName msgs).2
          = List.intersperse (Event.sleep interval_cnt)
              (msgs.map (Event.dispatch siteName))) :=
  ⟨send_msgs_inner_trace dispatch interval_cnt siteName msgs,
   send_msgs_inner_dispatch_count dispatch interval_cnt siteName msgs,
   send_msgs_inner_sleep_count dispatch interval_cnt siteName msgs,
   scr_send_loop_dispatch_count send interval_cnt siteName msgs,
   scr_send_loop_all_ok_trace send interval_cnt siteName msgs⟩

/-- Witness for C4 at a concrete input: target with three messages, all
    dispatches succeeding, in both plugin variants. -/
theorem claim4_witness :
    (send_msgs_inner (fun _ _ => SendOutcome.ret true "ok" []) 2 "A"
        ["m1", "m2", "m3"]).2
      = List.intersperse (Event.sleep (clampInterval 2))
          (["m1", "m2", "m3"].map (Event.dispatch "A"))
    ∧ (send_msgs_inner (fun _ _ => SendOutcome.ret true "ok" []) 2 "A"
        ["m1", "m2", "m3"]).2.countP Event.isDispatch = 3
    ∧ (∀ m ∈ ["m1", "m2", "m3"],
        (fun _ => ScrSendResult.ok) m = ScrSendResult.ok)
    ∧ (scr_send_loop (fun _ => ScrSendResult.ok) 2 "A"
        ["m1", "m2", "m3"]).2
      = List.intersperse (Event.sleep 2)
          (["m1", "m2", "m3"].map (Event.dispatch "A")) :=
  ⟨(claim4_calls_and_sleep_placement (fun _ _ => SendOutcome.ret true "ok" [])
      (fun _ => ScrSendResult.ok) 2 "A" ["m1", "m2", "m3"]).1,
   (claim4_calls_and_sleep_placement (fun _ _ => SendOutcome.ret true "ok" [])
      (fun _ => ScrSendResult.ok) 2 "A" ["m1", "m2", "m3"]).2.1,
   by decide,
   (claim4_calls_and_sleep_placement (fun _ _ => SendOutcome.ret true "ok" [])
      (fun _ => ScrSendResult.ok) 2 "A" ["m1", "m2", "m3"]).2.2.2.2 (by decide)⟩

/-- C4 counterexample: in `SiteChatRoom.__send_messages_to_site`, when the
    first of two sends raises, both dispatch calls are issued but no
    inter-message sleep occurs between them (the sleep statement sits
    inside the `try` after the send), contradicting the claim that a sleep
    is performed after every non-final call. -/
theorem claim4_counterexample :
    (scr_send_messages_to_site
        (fun m => if m == "m1" then ScrSendResult.raised else ScrSendResult.ok)
        5 "B" "url" "cookie" ["m1", "m2"]).2.countP Event.isDispatch = 2
    ∧ (scr_send_messages_to_site
        (fun m => if m == "m1" then ScrSendResult.raised else ScrSendResult.ok)
        5 "B" "url" "cookie" ["m1", "m2"]).2.countP Event.isSleep = 0 := by
  decide

/-- An element of an interspersed list is an element of the original list
    or the separator. -/
theorem mem_intersperse {α : Type _} (sep x : α) :
    ∀ l : List α, x ∈ List.intersperse sep l → x ∈ l ∨ x = sep
  | [] => by simp [List.intersperse]
  | [a] => by
    simp [List.intersperse]
    tauto
  | a :: b :: tl => by
    rw [List.intersperse_cons_cons]
    intro h
    rcases List.mem_cons.mp h with rfl | h
    · exact Or.inl (List.mem_cons_self _ _)
    · rcases List.mem_cons.mp h with rfl | h
      · exact Or.inr rfl
      · rcases mem_intersperse sep x (b :: tl) h with h' | h'
        · exact Or.inl (List.mem_cons_of_mem _ h')
        · exact Or.inr h'

/-- C5 (amended): in `GroupChatZone.__send_msgs` the duration of every
    inter-message sleep is clamped into `[1, 10]` seconds for every
    configured interval value; `SiteChatRoom.__send_messages_to_site`
    sleeps the configured interval unclamped (see the counterexample). -/
theorem claim5_gcz_sleep_clamped (dispatch : String → String → SendOutcome)
    (interval_cnt : Int) (siteName : String) (msgs : List String) (s : Int)
    (hs : Event.sleep s ∈ (send_msgs_inner dispatch interval_cnt siteName
        msgs).2) :
    1 ≤ s ∧ s ≤ 10 := by
  have hform : s = clampInterval interval_cnt := by
    rw [send_msgs_inner_trace] at hs
    rcases mem_intersperse _ _ _ hs with h | h
    · rcases List.mem_map.mp h with ⟨x, _, hx⟩
      cases hx
    · injection h
  rw [hform]
  exact clampInterval_bounds interval_cnt

/-- Witness for C5 at a concrete input: with a configured interval of 2 s
    a sleep of 2 s occurs in the trace and lies in `[1, 10]`. -/
theorem claim5_witness :
    Event.sleep 2 ∈ (send_msgs_inner (fun _ _ => SendOutcome.ret true "ok" [])
        2 "A" ["m1", "m2"]).2
    ∧ (1 ≤ (2 : Int) ∧ (2 : Int) ≤ 10) :=
  ⟨by decide,
   claim5_gcz_sleep_clamped (fun _ _ => SendOutcome.ret true "ok" []) 2 "A"
     ["m1", "m2"] 2 (by decide)⟩

/-- C5 counterexample: `SiteChatRoom` loads a configured interval of 12
    unchanged (`config.get("interval_cnt") or 5`) and sleeps 12 s between
    two successful messages — outside the claimed range `[1, 10]`. -/
theorem claim5_counterexample :
    scr_load_interval_cnt 12 = 12
    ∧ Event.sleep 12 ∈ (scr_send_messages_to_site (fun _ => ScrSendResult.ok)
        (scr_load_interval_cnt 12) "B" "url" "cookie" ["m1", "m2"]).2
    ∧ (10 : Int) < 12 := by
  decide

/-- C7 (amended): with the empty schedule string, `GroupChatZone` resolves
    to exactly one randomly-timed daily trigger whose hour lies between 9
    and 23 — for every possible random pick; `SiteChatRoom` resolves the
    same input to two such triggers (see the counterexample). -/
theorem claim7_empty_schedule_resolution (pick : Nat → Nat × Nat) :
    (gcz_service_for_empty_cron true pick).length = 1
    ∧ (gcz_service_for_empty_cron true pick).all
        (fun j => decide (9 ≤ j.hour) && decide (j.hour ≤ 23)) = true := by
  constructor
  · rfl
  · have hmod : (pick 0).1 % 15 < 15 := Nat.mod_lt _ (by norm_num)
    simp [gcz_service_for_empty_cron, configure_random_service,
      random_scheduler, List.range_succ]
    omega

/-- C7 counterexample: `SiteChatRoom.get_service` resolves the empty
    schedule string (plugin enabled) to two random daily triggers, not
    exactly one. -/
theorem claim7_counterexample :
    ((scr_service_for_empty_cron true (fun _ => (0, 0))).length == 1) = false
    ∧ (scr_service_for_empty_cron true (fun _ => (0, 0))).length = 2 := by
  decide

/-- C1: every invocation of the dispatch job that acquires the RunGuard
    lock (lock free, execution window not blocking) leaves the lock free —
    and the running flag cleared — when it returns, for every raise
    behaviour of the body: the `finally` arm of `send_site_messages`
    releases unconditionally. -/
theorem claim1_runguard_released (dispatch : String → String → SendOutcome)
    (interval_cnt : Int) (all_sites : List GSite)
    (parseResult : List (String × List String))
    (currentHour currentTime : Int) (rb : RaiseBehavior) (st : GCZState)
    (hwin : windowBlocks st currentHour = false)
    (hfree : st.lockHeld = false) :
    (send_site_messages dispatch interval_cnt all_sites parseResult
        currentHour currentTime rb st).1.lockHeld = false
    ∧ (send_site_messages dispatch interval_cnt all_sites parseResult
        currentHour currentTime rb st).1.running = false := by
  by_cases hcs : st.chat_sites.isEmpty <;> cases rb <;>
    simp [send_site_messages, hwin, hfree, hcs]

/-- Witness for C1 at a concrete input: a free lock inside the window,
    with an exception raised mid-dispatch, still ends with the lock
    free. -/
theorem claim1_witness :
    windowBlocks ⟨false, false, some 9, some 23, ["2"], [], 0⟩ 12 = false
    ∧ GCZState.lockHeld ⟨false, false, some 9, some 23, ["2"], [], 0⟩ = false
    ∧ (send_site_messages (fun _ _ => SendOutcome.ret true "ok" []) 2
        [⟨"2", "B"⟩] [("B", ["m1", "m2"])] 12 1000 (RaiseBehavior.inSend 1)
        ⟨false, false, some 9, some 23, ["2"], [], 0⟩).1.lockHeld = false
    ∧ (send_site_messages (fun _ _ => SendOutcome.ret true "ok" []) 2
        [⟨"2", "B"⟩] [("B", ["m1", "m2"])] 12 1000 (RaiseBehavior.inSend 1)
        ⟨false, false, some 9, some 23, ["2"], [], 0⟩).1.running = false :=
  ⟨by decide, by decide,
   (claim1_runguard_released (fun _ _ => SendOutcome.ret true "ok" []) 2
      [⟨"2", "B"⟩] [("B", ["m1", "m2"])] 12 1000 (RaiseBehavior.inSend 1)
      ⟨false, false, some 9, some 23, ["2"], [], 0⟩ (by decide) (by decide)).1,
   (claim1_runguard_released (fun _ _ => SendOutcome.ret true "ok" []) 2
      [⟨"2", "B"⟩] [("B", ["m1", "m2"])] 12 1000 (RaiseBehavior.inSend 1)
      ⟨false, false, some 9, some 23, ["2"], [], 0⟩ (by decide) (by decide)).2⟩

/-- C2: an invocation of `send_site_messages` made while the RunGuard lock
    is already held returns at once with the state unchanged and an empty
    event trace — no dispatch call, no run-result mutation, no queueing. -/
theorem claim2_locked_invocation_noop
    (dispatch : String → String → SendOutcome) (interval_cnt : Int)
    (all_sites : List GSite) (parseResult : List (String × List String))
    (currentHour currentTime : Int) (rb : RaiseBehavior) (st : GCZState)
    (hheld : st.lockHeld = true) :
    send_site_messages dispatch interval_cnt all_sites parseResult
        currentHour currentTime rb st = (st, []) := by
  cases hw : windowBlocks st currentHour <;>
    simp [send_site_messages, hw, hheld]

/-- Witness for C2 at a concrete input: with the lock held, the invocation
    changes nothing and dispatches nothing. -/
theorem claim2_witness :
    GCZState.lockHeld ⟨true, true, none, none, ["2"], [], 0⟩ = true
    ∧ send_site_messages (fun _ _ => SendOutcome.ret true "ok" []) 2
        [⟨"2", "B"⟩] [("B", ["m1"])] 12 1000 RaiseBehavior.noRaise
        ⟨true, true, none, none, ["2"], [], 0⟩
      = (⟨true, true, none, none, ["2"], [], 0⟩, []) :=
  ⟨by decide,
   claim2_locked_invocation_noop (fun _ _ => SendOutcome.ret true "ok" []) 2
     [⟨"2", "B"⟩] [("B", ["m1"])] 12 1000 RaiseBehavior.noRaise
     ⟨true, true, none, none, ["2"], [], 0⟩ (by decide)⟩

/-- C3: a message whose dispatch fails (all retries exhausted: the call
    raised `MessageSendError`, any other exception, or returned a False
    flag) is recorded in its target's `failed_messages` of the run results,
    and every message of every processed target — the remaining messages of
    that target and all messages of later targets included — is still
    dispatched. -/
theorem claim3_failure_recorded_and_isolated
    (dispatch : String → String → SendOutcome) (interval_cnt : Int)
    (all_sites : List GSite) (do_sites : List String)
    (site_msgs : List (String × List String)) (B : GSite) (m : String)
    (hnodup : ((sitesToProcess all_sites do_sites).map GSite.name).Nodup)
    (hB : B ∈ sitesToProcess all_sites do_sites)
    (hm : m ∈ msgsFor site_msgs B.name)
    (hfail : msgFails (dispatch B.name m) = true) :
    (∃ r, (send_msgs dispatch interval_cnt all_sites do_sites
          site_msgs).site_results.lookup B.name = some r
        ∧ m ∈ r.failed_messages)
    ∧ ∀ s ∈ sitesToProcess all_sites do_sites,
        ∀ m' ∈ msgsFor site_msgs s.name,
          Event.dispatch s.name m'
            ∈ (send_msgs dispatch interval_cnt all_sites do_sites
                site_msgs).trace := by
  constructor
  · refine ⟨(send_msgs_inner dispatch interval_cnt B.name
      (msgsFor site_msgs B.name)).1, ?_, ?_⟩
    · exact send_msgs_go_lookup dispatch interval_cnt site_msgs B _
        hnodup hB (List.ne_nil_of_mem hm)
    · exact send_msgs_inner_failed_mem dispatch interval_cnt B.name m _
        hm hfail
  · intro s hs m' hm'
    exact send_msgs_go_trace_mem dispatch interval_cnt site_msgs s m' _
      hs hm'

/-- Witness for C3 at a concrete input: three targets A, B, C in order,
    B's second message failing; it lands in B's `failed_messages` and all
    six messages are dispatched. -/
theorem claim3_witness :
    ((sitesToProcess [⟨"1", "A"⟩, ⟨"2", "B"⟩, ⟨"3", "C"⟩]
        ["1", "2", "3"]).map GSite.name).Nodup
    ∧ (⟨"2", "B"⟩ : GSite) ∈ sitesToProcess
        [⟨"1", "A"⟩, ⟨"2", "B"⟩, ⟨"3", "C"⟩] ["1", "2", "3"]
    ∧ "m2" ∈ msgsFor
        [("A", ["a1"]), ("B", ["m1", "m2", "m3"]), ("C", ["c1", "c2"])]
        (GSite.name ⟨"2", "B"⟩)
    ∧ msgFails ((fun sn msg =>
        if sn == "B" && msg == "m2" then SendOutcome.raiseSendError "err"
        else SendOutcome.ret true "ok" []) (GSite.name ⟨"2", "B"⟩) "m2") = true
    ∧ ((∃ r, (send_msgs (fun sn msg =>
          if sn == "B" && msg == "m2" then SendOutcome.raiseSendError "err"
          else SendOutcome.ret true "ok" []) 2
          [⟨"1", "A"⟩, ⟨"2", "B"⟩, ⟨"3", "C"⟩] ["1", "2", "3"]
          [("A", ["a1"]), ("B", ["m1", "m2", "m3"]), ("C", ["c1", "c2"])]
            ).site_results.lookup (GSite.name ⟨"2", "B"⟩) = some r
          ∧ "m2" ∈ r.failed_messages)
      ∧ ∀ s ∈ sitesToProcess [⟨"1", "A"⟩, ⟨"2", "B"⟩, ⟨"3", "C"⟩]
            ["1", "2", "3"],
          ∀ m' ∈ msgsFor
            [("A", ["a1"]), ("B", ["m1", "m2", "m3"]), ("C", ["c1", "c2"])]
            s.name,
            Event.dispatch s.name m' ∈ (send_msgs (fun sn msg =>
              if sn == "B" && msg == "m2" then SendOutcome.raiseSendError "err"
              else SendOutcome.ret true "ok" []) 2
              [⟨"1", "A"⟩, ⟨"2", "B"⟩, ⟨"3", "C"⟩] ["1", "2", "3"]
              [("A", ["a1"]), ("B", ["m1", "m2", "m3"]),
                ("C", ["c1", "c2"])]).trace) :=
  ⟨by decide, by decide, by decide, by decide,
   claim3_failure_recorded_and_isolated (fun sn msg =>
      if sn == "B" && msg == "m2" then SendOutcome.raiseSendError "err"
      else SendOutcome.ret true "ok" []) 2
      [⟨"1", "A"⟩, ⟨"2", "B"⟩, ⟨"3", "C"⟩] ["1", "2", "3"]
      [("A", ["a1"]), ("B", ["m1", "m2", "m3"]), ("C", ["c1", "c2"])]
      ⟨"2", "B"⟩ "m2" (by decide) (by decide) (by decide) (by decide)⟩

end MPV
